import Mathlib

/-!
Verification of the gateway terminal-session manager
(src/gateway/server-methods/terminal.ts) and the restart coordinator
(createGatewayReloadHandlers, exercised by
src/gateway/server-reload-handlers.test.ts).

The terminal manager is embedded shallowly: JavaScript numbers that flow
through Math.floor / Math.max are modelled by a rational plus an explicit
NaN case; the ambient mutable module state (activeSession and the timer)
is passed explicitly; external effects (pty spawn/kill/write/resize,
broadcasts, timer scheduling) are recorded in an event trace; the
setTimeout idle timer is modelled by an absolute deadline stored on the
session together with a fire step that runs the timer callback.
-/

/-- A JavaScript number as it flows through Math.floor and Math.max:
either NaN or a finite value (modelled as a rational, which is exact for
every value the handlers compare or clamp). -/
inductive JSNum where
  | nan : JSNum
  | num : ℚ → JSNum
deriving DecidableEq

/-- Math.floor: NaN propagates, finite values floor to an integer. -/
def jsFloor : JSNum → JSNum
  | JSNum.nan => JSNum.nan
  | JSNum.num q => JSNum.num ((Rat.floor q : ℤ) : ℚ)

/-- Math.max(1, x): NaN propagates, otherwise the larger of 1 and x. -/
def jsMax1 : JSNum → JSNum
  | JSNum.nan => JSNum.nan
  | JSNum.num q => JSNum.num (max 1 q)

/-- Math.max(1, Math.floor(v)), the clamping applied by terminal.open and
terminal.resize to each provided dimension. -/
def clampDim (v : JSNum) : JSNum := jsMax1 (jsFloor v)

/-- Effective dimension in terminal.open: typeof v === "number" (modelled
as some v, where none covers an absent or non-number-typed value) clamps,
otherwise the default applies. -/
def effectiveDim (v : Option JSNum) (dflt : ℚ) : JSNum :=
  match v with
  | some x => clampDim x
  | none => JSNum.num dflt

/-- JavaScript falsiness of an optional string: absent, or the empty
string (the only falsy string). Used for the bare truthiness checks
if (!sessionId) in the handlers. -/
def jsFalsy : Option String → Bool
  | none => true
  | some s => s = ""

/-- Error codes used by the terminal handlers (from ErrorCodes in the
protocol module). -/
inductive ErrorCode where
  | unavailable : ErrorCode
  | invalidRequest : ErrorCode
deriving DecidableEq

/-- Success payload of terminal.open: sessionId, cols, rows. -/
structure OpenPayload where
  sessionId : String
  cols : JSNum
  rows : JSNum
deriving DecidableEq

/-- A handler response: respond(true, payload?) or
respond(false, undefined, errorShape(code, message)). -/
inductive RpcResult where
  | success : Option OpenPayload → RpcResult
  | failure : ErrorCode → String → RpcResult
deriving DecidableEq

/-- External effects a handler (or the idle-timer callback) performs, in
order: timer clears and (re)schedules, pty kill/spawn/write/resize, and
best-effort broadcasts of terminal.closed. setTimer carries the absolute
model time at which the scheduled callback would fire. -/
inductive Ev where
  | clearTimer : Ev
  | setTimer : ℕ → Ev
  | killPty : ℕ → Ev
  | spawnPty : JSNum → JSNum → Ev
  | writePty : ℕ → String → Ev
  | resizePty : ℕ → JSNum → JSNum → Ev
  | broadcastClosed : String → Ev
deriving DecidableEq

/-- IDLE_TIMEOUT_MS = 10 * 60 * 1000 (ten minutes). -/
def IDLE_TIMEOUT_MS : ℕ := 10 * 60 * 1000

/-- A TerminalSession: id, pty handle (an opaque numeric token), and the
idle timer, modelled by the absolute time at which it would fire. -/
structure TerminalSession where
  id : String
  pty : ℕ
  idleDeadline : ℕ
deriving DecidableEq

/-- The module state of terminal.ts: the activeSession slot (at most one
session, as in the source's single nullable variable) plus a model clock
used to give timer deadlines a concrete meaning. -/
structure GatewayState where
  activeSession : Option TerminalSession
  now : ℕ
deriving DecidableEq

/-- destroySession: clearTimeout, kill the pty (failures swallowed),
clear the activeSession slot when it still holds this session, then
broadcast terminal.closed with the session id. -/
def destroySession (sess : TerminalSession) (s : GatewayState) :
    GatewayState × List Ev :=
  let cleared : Option TerminalSession :=
    match s.activeSession with
    | some a => if a.id = sess.id then none else some a
    | none => none
  ({ s with activeSession := cleared },
   [Ev.clearTimer, Ev.killPty sess.pty, Ev.broadcastClosed sess.id])

/-- resetIdleTimer: clearTimeout then setTimeout(destroySession,
IDLE_TIMEOUT_MS); the new deadline is now + IDLE_TIMEOUT_MS. -/
def resetIdleTimer (sess : TerminalSession) (s : GatewayState) :
    TerminalSession × List Ev :=
  ({ sess with idleDeadline := s.now + IDLE_TIMEOUT_MS },
   [Ev.clearTimer, Ev.setTimer (s.now + IDLE_TIMEOUT_MS)])

/-- Parameters of terminal.open; none models a cols/rows value that is
absent or not of JavaScript number type (the typeof check in the source
distinguishes only number from everything else). -/
structure OpenParams where
  cols : Option JSNum
  rows : Option JSNum
deriving DecidableEq

/-- terminal.open. spawnOk says whether the pty spawn call succeeds or
throws; freshId models crypto.randomUUID() (always a nonempty string in
the source) and freshPty the new pty handle. If a session is active it is
destroyed first; dimensions are clamped or defaulted; on spawn failure
the handler responds unavailable and returns; on success the new session
is installed, its idle timer is started (the source's throwaway
setTimeout placeholder is immediately replaced by resetIdleTimer, so only
the reset is recorded), and the handler responds with sessionId, cols,
rows. -/
def terminalOpen (spawnOk : Bool) (freshId : String) (freshPty : ℕ)
    (p : OpenParams) (s : GatewayState) :
    GatewayState × RpcResult × List Ev :=
  let destroyed : GatewayState × List Ev :=
    match s.activeSession with
    | some old => destroySession old s
    | none => (s, [])
  let s1 := destroyed.1
  let cols := effectiveDim p.cols 80
  let rows := effectiveDim p.rows 24
  if spawnOk then
    let deadline := s1.now + IDLE_TIMEOUT_MS
    let sess : TerminalSession :=
      { id := freshId, pty := freshPty, idleDeadline := deadline }
    ({ s1 with activeSession := some sess },
     RpcResult.success (some { sessionId := freshId, cols := cols, rows := rows }),
     destroyed.2 ++ [Ev.spawnPty cols rows, Ev.clearTimer, Ev.setTimer deadline])
  else
    (s1,
     RpcResult.failure ErrorCode.unavailable "failed to spawn PTY",
     destroyed.2 ++ [Ev.spawnPty cols rows])

/-- Parameters of terminal.input; data is none when absent or not a
string. -/
structure InputParams where
  sessionId : Option String
  data : Option String
deriving DecidableEq

/-- terminal.input: reject a falsy sessionId or non-string data; reject
when no active session matches; otherwise write the data to the pty,
reset the idle timer and respond success. -/
def terminalInput (p : InputParams) (s : GatewayState) :
    GatewayState × RpcResult × List Ev :=
  if jsFalsy p.sessionId = true ∨ p.data = none then
    (s, RpcResult.failure ErrorCode.invalidRequest "sessionId and data required", [])
  else
    match s.activeSession, p.sessionId, p.data with
    | some sess, some sid, some d =>
      if sess.id = sid then
        let rt := resetIdleTimer sess s
        ({ s with activeSession := some rt.1 },
         RpcResult.success none,
         Ev.writePty sess.pty d :: rt.2)
      else
        (s, RpcResult.failure ErrorCode.invalidRequest "no active terminal session", [])
    | _, _, _ =>
      (s, RpcResult.failure ErrorCode.invalidRequest "no active terminal session", [])

/-- Parameters of terminal.resize; cols/rows are none when absent or not
of number type. -/
structure ResizeParams where
  sessionId : Option String
  cols : Option JSNum
  rows : Option JSNum
deriving DecidableEq

/-- terminal.resize: reject a falsy sessionId or non-number cols/rows;
reject when no active session matches; otherwise resize the pty with both
dimensions clamped, reset the idle timer and respond success. -/
def terminalResize (p : ResizeParams) (s : GatewayState) :
    GatewayState × RpcResult × List Ev :=
  if jsFalsy p.sessionId = true ∨ p.cols = none ∨ p.rows = none then
    (s, RpcResult.failure ErrorCode.invalidRequest "sessionId, cols, and rows required", [])
  else
    match s.activeSession, p.sessionId, p.cols, p.rows with
    | some sess, some sid, some c, some r =>
      if sess.id = sid then
        let rt := resetIdleTimer sess s
        ({ s with activeSession := some rt.1 },
         RpcResult.success none,
         Ev.resizePty sess.pty (clampDim c) (clampDim r) :: rt.2)
      else
        (s, RpcResult.failure ErrorCode.invalidRequest "no active terminal session", [])
    | _, _, _, _ =>
      (s, RpcResult.failure ErrorCode.invalidRequest "no active terminal session", [])

/-- Parameters of terminal.close. -/
structure CloseParams where
  sessionId : Option String
deriving DecidableEq

/-- terminal.close: a falsy sessionId is rejected with invalid-request
"sessionId required"; a non-matching id (or no active session) responds
success with no effect; a matching id destroys the session and responds
success. -/
def terminalClose (p : CloseParams) (s : GatewayState) :
    GatewayState × RpcResult × List Ev :=
  if jsFalsy p.sessionId = true then
    (s, RpcResult.failure ErrorCode.invalidRequest "sessionId required", [])
  else
    match s.activeSession, p.sessionId with
    | some sess, some sid =>
      if sess.id = sid then
        let d := destroySession sess s
        (d.1, RpcResult.success none, d.2)
      else
        (s, RpcResult.success none, [])
    | _, _ => (s, RpcResult.success none, [])

/-- The idle timer firing: the setTimeout callback scheduled by
resetIdleTimer runs destroySession on its session. The timer is pending
exactly for the active session (every reset and every destroy path clears
the previous timer), and it fires once the model clock reaches the
deadline. Note the fire step returns no RpcResult: there is no pending
request to answer. -/
def fireIdleTimer (s : GatewayState) : GatewayState × List Ev :=
  match s.activeSession with
  | some sess =>
    if sess.idleDeadline ≤ s.now then destroySession sess s else (s, [])
  | none => (s, [])

/-- Let the model clock advance with no handler activity. -/
def advanceTime (d : ℕ) (s : GatewayState) : GatewayState :=
  { s with now := s.now + d }

/-- One terminal.open call together with its environment inputs. -/
structure OpenCall where
  spawnOk : Bool
  freshId : String
  freshPty : ℕ
  params : OpenParams
deriving DecidableEq

/-- The state after one terminal.open call. -/
def openStep (c : OpenCall) (s : GatewayState) : GatewayState :=
  (terminalOpen c.spawnOk c.freshId c.freshPty c.params s).1

/-- The states reached after each call in a sequence of terminal.open
calls, in order. -/
def runOpensStates : List OpenCall → GatewayState → List GatewayState
  | [], _ => []
  | c :: rest, s =>
    let s1 := openStep c s
    s1 :: runOpensStates rest s1

/-!
Restart coordinator. Its implementation (createGatewayReloadHandlers in
src/gateway/server-reload-handlers.ts) is not part of the sources here;
only its test file is. The coordinator is therefore modelled from the
spec, and its behavior is checked to agree with every scenario in
src/gateway/server-reload-handlers.test.ts.
-/

/-- Modelled from the spec: the GatewayReloadPlan value object (spec
section 3, matching the makePlan shape in the test file); the coordinator
reads only restartGateway, the rest is carried opaquely. -/
structure GatewayReloadPlan where
  restartGateway : Bool
  restartReasons : List String
  changedPaths : List String
  reloadHooks : Bool
  restartHeartbeat : Bool
  restartCron : Bool
  restartBrowserControl : Bool
  restartGmailWatcher : Bool
  restartChannels : List String
  hotReasons : List String
  noopPaths : List String
deriving DecidableEq

/-- Modelled from the spec: the config snapshot passed through opaquely
by the restart coordinator. -/
structure GatewayConfig where
  snapshot : String
deriving DecidableEq

/-- Modelled from the spec: the Deferred Restart State — empty, or
holding the most recently deferred (plan, config) pair. -/
structure RestartState where
  deferred : Option (GatewayReloadPlan × GatewayConfig)
deriving DecidableEq

/-- Modelled from the spec: requestGatewayRestart (missing source
src/gateway/server-reload-handlers.ts). wizardActive is the value of the
conflict gate isSetupWizardActive at the call. If the plan does not ask
for a gateway restart, no-op; if the gate is active, hold (plan, config)
as the deferred restart, overwriting any held value, and do not signal;
otherwise emit the self-restart signal immediately. The returned list is
the restart signals emitted during the call, each carrying the plan and
config it was issued for. -/
def requestGatewayRestart (wizardActive : Bool) (plan : GatewayReloadPlan)
    (config : GatewayConfig) (st : RestartState) :
    RestartState × List (GatewayReloadPlan × GatewayConfig) :=
  if plan.restartGateway = false then (st, [])
  else if wizardActive then ({ deferred := some (plan, config) }, [])
  else (st, [(plan, config)])

/-- Modelled from the spec: flushDeferredRestart (missing source
src/gateway/server-reload-handlers.ts). Empty state is a no-op; otherwise
clear the state and emit the self-restart signal exactly once with the
held plan and config. -/
def flushDeferredRestart (st : RestartState) :
    RestartState × List (GatewayReloadPlan × GatewayConfig) :=
  match st.deferred with
  | some pc => ({ deferred := none }, [pc])
  | none => (st, [])

/-!
Theorems for the claims.
-/

/-- Helper: a terminal.open call whose spawn succeeds always leaves some
session active, whatever the prior state. -/
theorem openStep_isSome (c : OpenCall) (s : GatewayState)
    (h : c.spawnOk = true) :
    (openStep c s).activeSession.isSome = true := by
  cases hA : s.activeSession <;>
    simp [openStep, terminalOpen, destroySession, h, hA]

/-- Claim C1: at most one terminal session exists at any instant. After
each call in any sequence of successful terminal.open calls exactly one
session is active (the activeSession slot, the source's single nullable
variable, is some); and whenever a session exists at an open, the call
first clears its timer, kills its pty handle and broadcasts
terminal.closed for it, and only then spawns the new pty; on success the
state holds only the freshly created session. -/
theorem C1_terminal_exclusivity :
    (∀ (cs : List OpenCall) (s : GatewayState),
        (∀ c ∈ cs, c.spawnOk = true) →
        ∀ s1 ∈ runOpensStates cs s, s1.activeSession.isSome = true)
    ∧
    (∀ (c : OpenCall) (s : GatewayState) (old : TerminalSession),
        s.activeSession = some old →
        ∃ cc rr tail,
          (terminalOpen c.spawnOk c.freshId c.freshPty c.params s).2.2 =
            Ev.clearTimer :: Ev.killPty old.pty :: Ev.broadcastClosed old.id ::
              Ev.spawnPty cc rr :: tail)
    ∧
    (∀ (c : OpenCall) (s : GatewayState),
        c.spawnOk = true →
        (openStep c s).activeSession =
          some { id := c.freshId, pty := c.freshPty,
                 idleDeadline := s.now + IDLE_TIMEOUT_MS }) := by
  refine ⟨?_, ?_, ?_⟩
  · intro cs
    induction cs with
    | nil => intro s _ s1 hs1; simp [runOpensStates] at hs1
    | cons c rest ih =>
      intro s hok s1 hs1
      simp only [runOpensStates, List.mem_cons] at hs1
      rcases hs1 with h1 | h2
      · subst h1
        exact openStep_isSome c s (hok c (List.mem_cons_self c rest))
      · exact ih (openStep c s) (fun d hd => hok d (List.mem_cons_of_mem c hd)) s1 h2
  · intro c s old hA
    cases hsp : c.spawnOk
    · exact ⟨effectiveDim c.params.cols 80, effectiveDim c.params.rows 24, [],
        by simp [terminalOpen, destroySession, hA, hsp]⟩
    · exact ⟨effectiveDim c.params.cols 80, effectiveDim c.params.rows 24,
        [Ev.clearTimer, Ev.setTimer (s.now + IDLE_TIMEOUT_MS)],
        by simp [terminalOpen, destroySession, hA, hsp]⟩
  · intro c s h
    cases hA : s.activeSession <;>
      simp [openStep, terminalOpen, destroySession, h, hA]

/-- Witness for C1 at concrete inputs: a state holding session a (pty 1)
on which an open with fresh id b is issued; the trace destroys a before
spawning, and running two successful opens in a row leaves a session
active after each. -/
theorem C1_witness :
    (∃ cc rr tail,
      (terminalOpen true "b" 2 { cols := none, rows := none }
          { activeSession := some { id := "a", pty := 1, idleDeadline := 0 },
            now := 0 }).2.2 =
        Ev.clearTimer :: Ev.killPty 1 :: Ev.broadcastClosed "a" ::
          Ev.spawnPty cc rr :: tail)
    ∧
    (∀ s1 ∈ runOpensStates
        [{ spawnOk := true, freshId := "a", freshPty := 1,
           params := { cols := none, rows := none } },
         { spawnOk := true, freshId := "b", freshPty := 2,
           params := { cols := none, rows := none } }]
        { activeSession := none, now := 0 },
      s1.activeSession.isSome = true) :=
  ⟨C1_terminal_exclusivity.2.1
      { spawnOk := true, freshId := "b", freshPty := 2,
        params := { cols := none, rows := none } }
      { activeSession := some { id := "a", pty := 1, idleDeadline := 0 }, now := 0 }
      { id := "a", pty := 1, idleDeadline := 0 } rfl,
   C1_terminal_exclusivity.1
      [{ spawnOk := true, freshId := "a", freshPty := 1,
         params := { cols := none, rows := none } },
       { spawnOk := true, freshId := "b", freshPty := 2,
         params := { cols := none, rows := none } }]
      { activeSession := none, now := 0 }
      (by intro c hc; fin_cases hc <;> rfl)⟩

/-- Claim C2, counterexample: with the sessionId absent from the request,
terminal.close does not respond success; it responds an invalid-request
error (sessionId required), contradicting the claim that an absent id
always succeeds. -/
theorem C2_counterexample :
    (terminalClose { sessionId := none }
        { activeSession := none, now := 0 }).2.1 =
      RpcResult.failure ErrorCode.invalidRequest "sessionId required" := by
  rfl

/-- Claim C2 as amended: for every terminal.close whose sessionId is
present and nonempty but unknown (not the active session's id, or no
session exists), the handler responds success with no error and no side
effects (state unchanged, no events); a missing or empty sessionId
instead yields an invalid-request error with no side effects. -/
theorem C2_close_idempotent (p : CloseParams) (s : GatewayState) :
    (jsFalsy p.sessionId = false →
      (∀ sess, s.activeSession = some sess → p.sessionId ≠ some sess.id) →
      terminalClose p s = (s, RpcResult.success none, []))
    ∧
    (jsFalsy p.sessionId = true →
      terminalClose p s =
        (s, RpcResult.failure ErrorCode.invalidRequest "sessionId required", [])) := by
  constructor
  · intro hf hne
    cases hp : p.sessionId with
    | none => simp [jsFalsy, hp] at hf
    | some sid =>
      rw [hp] at hf
      simp only [jsFalsy, decide_eq_false_iff_not] at hf
      cases hA : s.activeSession with
      | none => simp [terminalClose, jsFalsy, hp, hf, hA]
      | some sess =>
        have hid : ¬ sess.id = sid := by
          intro h
          exact hne sess hA (by rw [hp, h])
        simp [terminalClose, jsFalsy, hp, hf, hA, hid]
  · intro hf
    simp [terminalClose, hf]

/-- Witness for C2 at concrete inputs: closing with id x while session a
is active succeeds with no effect, and closing with an absent id yields
the invalid-request error. -/
theorem C2_witness :
    (terminalClose { sessionId := some "x" }
        { activeSession := some { id := "a", pty := 1, idleDeadline := 5 }, now := 5 } =
      ({ activeSession := some { id := "a", pty := 1, idleDeadline := 5 }, now := 5 },
       RpcResult.success none, []))
    ∧
    (terminalClose { sessionId := none }
        { activeSession := some { id := "a", pty := 1, idleDeadline := 5 }, now := 5 } =
      ({ activeSession := some { id := "a", pty := 1, idleDeadline := 5 }, now := 5 },
       RpcResult.failure ErrorCode.invalidRequest "sessionId required", [])) :=
  ⟨(C2_close_idempotent { sessionId := some "x" }
      { activeSession := some { id := "a", pty := 1, idleDeadline := 5 }, now := 5 }).1
      (by decide)
      (by intro sess hs hq; cases hs; simp at hq),
   (C2_close_idempotent { sessionId := none }
      { activeSession := some { id := "a", pty := 1, idleDeadline := 5 }, now := 5 }).2
      rfl⟩

/-- Claim C7: a provided finite dimension (zero, negative, fractional or
any other finite value) is coerced to Math.max(1, Math.floor(value)), an
integer at least 1; terminal.open returns the clamped values in its
response, defaulting to 80 by 24 when cols/rows are omitted or not
numbers; terminal.resize resizes the pty with both dimensions clamped the
same way. -/
theorem C7_dimension_clamping :
    (∀ q : ℚ,
        clampDim (JSNum.num q) = JSNum.num ((max 1 (Rat.floor q) : ℤ) : ℚ)
        ∧ ∃ n : ℤ, clampDim (JSNum.num q) = JSNum.num (n : ℚ) ∧ 1 ≤ n)
    ∧
    (∀ (fid : String) (fp : ℕ) (s : GatewayState) (cv rv : JSNum),
        (terminalOpen true fid fp { cols := some cv, rows := some rv } s).2.1 =
          RpcResult.success
            (some { sessionId := fid, cols := clampDim cv, rows := clampDim rv }))
    ∧
    (∀ (fid : String) (fp : ℕ) (s : GatewayState),
        (terminalOpen true fid fp { cols := none, rows := none } s).2.1 =
          RpcResult.success
            (some { sessionId := fid, cols := JSNum.num 80, rows := JSNum.num 24 }))
    ∧
    (∀ (s : GatewayState) (sess : TerminalSession) (sid : String) (c r : JSNum),
        s.activeSession = some sess → sess.id = sid → sid ≠ "" →
        (terminalResize { sessionId := some sid, cols := some c, rows := some r } s).2.2 =
          [Ev.resizePty sess.pty (clampDim c) (clampDim r),
           Ev.clearTimer, Ev.setTimer (s.now + IDLE_TIMEOUT_MS)]) := by
  refine ⟨?_, ?_, ?_, ?_⟩
  · intro q
    have h1 : clampDim (JSNum.num q) = JSNum.num (max 1 ((Rat.floor q : ℤ) : ℚ)) := rfl
    constructor
    · rw [h1]
      congr 1
      rw [Int.cast_max, Int.cast_one]
    · refine ⟨max 1 (Rat.floor q), ?_, le_max_left 1 _⟩
      rw [h1]
      congr 1
      rw [Int.cast_max, Int.cast_one]
  · intro fid fp s cv rv
    cases hA : s.activeSession <;>
      simp [terminalOpen, destroySession, effectiveDim, hA]
  · intro fid fp s
    cases hA : s.activeSession <;>
      simp [terminalOpen, destroySession, effectiveDim, hA]
  · intro s sess sid c r hA hid hne
    simp [terminalResize, jsFalsy, hA, hid, hne, resetIdleTimer]

/-- Witness for C7 at concrete inputs: minus five halves clamps to an
integer at least 1, and a resize of the active session a with cols 0 and
rows five halves emits the clamped resize followed by the timer reset. -/
theorem C7_witness :
    (∃ n : ℤ, clampDim (JSNum.num (-5 / 2)) = JSNum.num (n : ℚ) ∧ 1 ≤ n)
    ∧
    (terminalResize
        { sessionId := some "a", cols := some (JSNum.num 0),
          rows := some (JSNum.num (5 / 2)) }
        { activeSession := some { id := "a", pty := 1, idleDeadline := 0 },
          now := 0 }).2.2 =
      [Ev.resizePty 1 (clampDim (JSNum.num 0)) (clampDim (JSNum.num (5 / 2))),
       Ev.clearTimer, Ev.setTimer (0 + IDLE_TIMEOUT_MS)] :=
  ⟨(C7_dimension_clamping.1 (-5 / 2)).2,
   C7_dimension_clamping.2.2.2
     { activeSession := some { id := "a", pty := 1, idleDeadline := 0 }, now := 0 }
     { id := "a", pty := 1, idleDeadline := 0 } "a" (JSNum.num 0) (JSNum.num (5 / 2))
     rfl rfl (by decide)⟩

/-- Claim C8: when the pty spawn throws during terminal.open from the
Idle state, the handler responds with the unavailable error and the state
is unchanged (the activeSession slot stays empty, no timer is set, no
broadcast or kill happens); the only external effect is the failed spawn
attempt itself. -/
theorem C8_spawn_failure (fid : String) (fp : ℕ) (p : OpenParams)
    (s : GatewayState) (h : s.activeSession = none) :
    terminalOpen false fid fp p s =
      (s, RpcResult.failure ErrorCode.unavailable "failed to spawn PTY",
       [Ev.spawnPty (effectiveDim p.cols 80) (effectiveDim p.rows 24)]) := by
  simp [terminalOpen, h]

/-- Witness for C8 at a concrete input: a failing spawn from the empty
state leaves it empty and responds unavailable. -/
theorem C8_witness :
    terminalOpen false "a" 1 { cols := none, rows := none }
        { activeSession := none, now := 0 } =
      ({ activeSession := none, now := 0 },
       RpcResult.failure ErrorCode.unavailable "failed to spawn PTY",
       [Ev.spawnPty (effectiveDim none 80) (effectiveDim none 24)]) :=
  C8_spawn_failure "a" 1 { cols := none, rows := none }
    { activeSession := none, now := 0 } rfl

/-- Claim C10: the 80 by 24 defaults apply only to values that are not of
number type; NaN is a number, so it bypasses the default, and
Math.max(1, Math.floor(NaN)) is NaN, which is not an integer at least 1:
an open with cols NaN (and a successful spawn) creates a session and
responds success with cols NaN. -/
theorem C10_nan_dimension :
    ∀ (fid : String) (fp : ℕ) (s : GatewayState) (rv : Option JSNum),
      clampDim JSNum.nan = JSNum.nan
      ∧ (∀ n : ℤ, JSNum.nan ≠ JSNum.num (n : ℚ))
      ∧ (terminalOpen true fid fp { cols := some JSNum.nan, rows := rv } s).2.1 =
          RpcResult.success
            (some { sessionId := fid, cols := JSNum.nan, rows := effectiveDim rv 24 })
      ∧ (terminalOpen true fid fp
            { cols := some JSNum.nan, rows := rv } s).1.activeSession.isSome = true := by
  intro fid fp s rv
  refine ⟨rfl, fun n => by simp, ?_, ?_⟩ <;>
    cases hA : s.activeSession <;>
      simp [terminalOpen, destroySession, effectiveDim, clampDim, jsFloor, jsMax1, hA]

/-- Claim C9: IDLE_TIMEOUT_MS is ten minutes; every successful
terminal.input or terminal.resize against the active session responds
success and resets that session's idle deadline to the full window after
the current instant; once the deadline is reached with no further reset,
the timer callback destroys the session (clears the timer, kills the pty
handle, empties the slot) and broadcasts terminal.closed, producing no
RPC response at all (the fire step has no respond output and its trace is
exactly the destroy effects); before the deadline the timer does
nothing. -/
theorem C9_idle_eviction :
    IDLE_TIMEOUT_MS = 10 * 60 * 1000
    ∧
    (∀ (s : GatewayState) (sess : TerminalSession) (sid d : String),
        s.activeSession = some sess → sess.id = sid → sid ≠ "" →
        (terminalInput { sessionId := some sid, data := some d } s).2.1 =
            RpcResult.success none
          ∧ (terminalInput { sessionId := some sid, data := some d } s).1.activeSession =
            some { sess with idleDeadline := s.now + IDLE_TIMEOUT_MS })
    ∧
    (∀ (s : GatewayState) (sess : TerminalSession) (sid : String) (c r : JSNum),
        s.activeSession = some sess → sess.id = sid → sid ≠ "" →
        (terminalResize { sessionId := some sid, cols := some c, rows := some r } s).2.1 =
            RpcResult.success none
          ∧ (terminalResize
              { sessionId := some sid, cols := some c, rows := some r } s).1.activeSession =
            some { sess with idleDeadline := s.now + IDLE_TIMEOUT_MS })
    ∧
    (∀ (s : GatewayState) (sess : TerminalSession),
        s.activeSession = some sess → sess.idleDeadline ≤ s.now →
        fireIdleTimer s =
          ({ s with activeSession := none },
           [Ev.clearTimer, Ev.killPty sess.pty, Ev.broadcastClosed sess.id]))
    ∧
    (∀ (s : GatewayState) (sess : TerminalSession),
        s.activeSession = some sess → s.now < sess.idleDeadline →
        fireIdleTimer s = (s, [])) := by
  refine ⟨rfl, ?_, ?_, ?_, ?_⟩
  · intro s sess sid d hA hid hne
    constructor <;> simp [terminalInput, jsFalsy, hA, hid, hne, resetIdleTimer]
  · intro s sess sid c r hA hid hne
    constructor <;> simp [terminalResize, jsFalsy, hA, hid, hne, resetIdleTimer]
  · intro s sess hA hle
    simp [fireIdleTimer, destroySession, hA, hle]
  · intro s sess hA hlt
    simp [fireIdleTimer, hA, Nat.not_le.mpr hlt]

/-- Witness for C9 at concrete inputs: input against active session a at
time 3 resets the deadline to 3 + IDLE_TIMEOUT_MS, and once the clock
reaches the deadline the timer destroys the session and broadcasts
terminal.closed. -/
theorem C9_witness :
    ((terminalInput { sessionId := some "a", data := some "ls" }
        { activeSession := some { id := "a", pty := 1, idleDeadline := 9 },
          now := 3 }).2.1 = RpcResult.success none
      ∧ (terminalInput { sessionId := some "a", data := some "ls" }
          { activeSession := some { id := "a", pty := 1, idleDeadline := 9 },
            now := 3 }).1.activeSession =
        some { id := "a", pty := 1, idleDeadline := 3 + IDLE_TIMEOUT_MS })
    ∧
    fireIdleTimer
        { activeSession := some { id := "a", pty := 1, idleDeadline := 7 }, now := 7 } =
      ({ activeSession := none, now := 7 },
       [Ev.clearTimer, Ev.killPty 1, Ev.broadcastClosed "a"]) :=
  ⟨C9_idle_eviction.2.1
      { activeSession := some { id := "a", pty := 1, idleDeadline := 9 }, now := 3 }
      { id := "a", pty := 1, idleDeadline := 9 } "a" "ls" rfl rfl (by decide),
   C9_idle_eviction.2.2.2.1
      { activeSession := some { id := "a", pty := 1, idleDeadline := 7 }, now := 7 }
      { id := "a", pty := 1, idleDeadline := 7 } rfl (by decide)⟩

/-- Claim C3 (restart coordinator modelled from the spec): with the plan
asking for a gateway restart and the wizard gate active, the request
emits no signal and holds (plan, config); the later flush then emits the
signal exactly once, with that plan and config, and clears the state. -/
theorem C3_restart_deferral (plan : GatewayReloadPlan) (config : GatewayConfig)
    (st : RestartState) (h : plan.restartGateway = true) :
    (requestGatewayRestart true plan config st).2 = []
    ∧ (requestGatewayRestart true plan config st).1.deferred = some (plan, config)
    ∧ flushDeferredRestart (requestGatewayRestart true plan config st).1 =
        ({ deferred := none }, [(plan, config)]) := by
  simp [requestGatewayRestart, flushDeferredRestart, h]

/-- Claim C4 (restart coordinator modelled from the spec): with the plan
asking for a gateway restart and the wizard gate inactive, the signal is
emitted synchronously in the same call, once, and nothing is queued: the
deferred state is untouched and stays empty. -/
theorem C4_restart_immediate (plan : GatewayReloadPlan) (config : GatewayConfig)
    (st : RestartState) (h : plan.restartGateway = true)
    (hempty : st.deferred = none) :
    requestGatewayRestart false plan config st = (st, [(plan, config)])
    ∧ (requestGatewayRestart false plan config st).1.deferred = none := by
  constructor
  · simp [requestGatewayRestart, h]
  · simp [requestGatewayRestart, h, hempty]

/-- Claim C5 (restart coordinator modelled from the spec): two restart
requests while the gate is active each emit nothing; the second replaces
the held pair rather than queueing, so one flush emits exactly one
signal, carrying the latest plan and config. -/
theorem C5_latest_wins (p1 p2 : GatewayReloadPlan) (c1 c2 : GatewayConfig)
    (st : RestartState) (h1 : p1.restartGateway = true)
    (h2 : p2.restartGateway = true) :
    (requestGatewayRestart true p1 c1 st).2 = []
    ∧ (requestGatewayRestart true p2 c2 (requestGatewayRestart true p1 c1 st).1).2 = []
    ∧ (requestGatewayRestart true p2 c2
        (requestGatewayRestart true p1 c1 st).1).1.deferred = some (p2, c2)
    ∧ flushDeferredRestart
        (requestGatewayRestart true p2 c2 (requestGatewayRestart true p1 c1 st).1).1 =
        ({ deferred := none }, [(p2, c2)]) := by
  simp [requestGatewayRestart, flushDeferredRestart, h1, h2]

/-- Claim C6 (restart coordinator modelled from the spec): after exactly
one deferred request, the first flush emits exactly one signal and clears
the state, the second flush observes the empty state and emits nothing;
flushing when nothing was ever deferred emits nothing. -/
theorem C6_flush_idempotent (plan : GatewayReloadPlan) (config : GatewayConfig)
    (st : RestartState) (h : plan.restartGateway = true) :
    (flushDeferredRestart (requestGatewayRestart true plan config st).1).2 =
        [(plan, config)]
    ∧ (flushDeferredRestart
        (flushDeferredRestart (requestGatewayRestart true plan config st).1).1).2 = []
    ∧ flushDeferredRestart { deferred := none } = ({ deferred := none }, []) := by
  simp [requestGatewayRestart, flushDeferredRestart, h]

/-- A concrete reload plan, in the shape of makePlan in
src/gateway/server-reload-handlers.test.ts. -/
def samplePlan : GatewayReloadPlan :=
  { restartGateway := true
    restartReasons := ["gateway.mode changed"]
    changedPaths := ["gateway.mode"]
    reloadHooks := false
    restartHeartbeat := false
    restartCron := false
    restartBrowserControl := false
    restartGmailWatcher := false
    restartChannels := []
    hotReasons := []
    noopPaths := [] }

/-- A second concrete reload plan with a different reason. -/
def samplePlan2 : GatewayReloadPlan :=
  { samplePlan with restartReasons := ["second change"] }

/-- A concrete config snapshot. -/
def sampleConfig : GatewayConfig := { snapshot := "cfg" }

/-- Witness for C3 at concrete inputs. -/
theorem C3_witness :
    (requestGatewayRestart true samplePlan sampleConfig { deferred := none }).2 = []
    ∧ (requestGatewayRestart true samplePlan sampleConfig
        { deferred := none }).1.deferred = some (samplePlan, sampleConfig)
    ∧ flushDeferredRestart
        (requestGatewayRestart true samplePlan sampleConfig { deferred := none }).1 =
        ({ deferred := none }, [(samplePlan, sampleConfig)]) :=
  C3_restart_deferral samplePlan sampleConfig { deferred := none } rfl

/-- Witness for C4 at concrete inputs. -/
theorem C4_witness :
    requestGatewayRestart false samplePlan sampleConfig { deferred := none } =
      ({ deferred := none }, [(samplePlan, sampleConfig)])
    ∧ (requestGatewayRestart false samplePlan sampleConfig
        { deferred := none }).1.deferred = none :=
  C4_restart_immediate samplePlan sampleConfig { deferred := none } rfl rfl

/-- Witness for C5 at concrete inputs: two deferred requests, the second
plan wins, one flush emits one signal with the second plan. -/
theorem C5_witness :
    (requestGatewayRestart true samplePlan sampleConfig { deferred := none }).2 = []
    ∧ (requestGatewayRestart true samplePlan2 sampleConfig
        (requestGatewayRestart true samplePlan sampleConfig { deferred := none }).1).2 = []
    ∧ (requestGatewayRestart true samplePlan2 sampleConfig
        (requestGatewayRestart true samplePlan sampleConfig
          { deferred := none }).1).1.deferred = some (samplePlan2, sampleConfig)
    ∧ flushDeferredRestart
        (requestGatewayRestart true samplePlan2 sampleConfig
          (requestGatewayRestart true samplePlan sampleConfig
            { deferred := none }).1).1 =
        ({ deferred := none }, [(samplePlan2, sampleConfig)]) :=
  C5_latest_wins samplePlan samplePlan2 sampleConfig sampleConfig
    { deferred := none } rfl rfl

/-- Witness for C6 at concrete inputs: one deferred request, two flushes,
exactly one signal. -/
theorem C6_witness :
    (flushDeferredRestart
        (requestGatewayRestart true samplePlan sampleConfig { deferred := none }).1).2 =
        [(samplePlan, sampleConfig)]
    ∧ (flushDeferredRestart
        (flushDeferredRestart
          (requestGatewayRestart true samplePlan sampleConfig
            { deferred := none }).1).1).2 = []
    ∧ flushDeferredRestart { deferred := none } = ({ deferred := none }, []) :=
  C6_flush_idempotent samplePlan sampleConfig { deferred := none } rfl
